import Mathlib

set_option maxRecDepth 8000

/-!
Shallow embedding of the Wallet Autopilot agent backend (liolikus/mma):
the rule engine (`src/backend/src/agent/ruleEngine.ts`), the delegation
registry (`src/backend/src/agent/delegationRegistry.ts`), the indexer
client (`src/backend/src/services/envio.ts`), and the wallet monitor and
transaction executor (`src/unnamed/part_008`).  Each definition mirrors
one TypeScript function; doc comments cite the source location.
-/

namespace WalletAutopilot

/-- Mirrors interface `TokenApprovalData` of `src/backend/src/services/envio.ts`
(lines 16-24): all address-like and amount fields are strings in the source. -/
structure TokenApprovalData where
  id : String
  owner : String
  spender : String
  token : String
  amount : String
  isRisky : Bool
  status : String
  deriving DecidableEq, Repr

/-- Mirrors the action union `'revoke' | 'cleanup' | 'consolidate'` of
interface `RuleResult` in `src/backend/src/agent/ruleEngine.ts`. -/
inductive ActionKind where
  | revoke
  | cleanup
  | consolidate
  deriving DecidableEq, Repr

/-- Mirrors interface `RuleResult` of `src/backend/src/agent/ruleEngine.ts`
(lines 3-8). -/
structure RuleResult where
  shouldExecute : Bool
  reason : String
  action : ActionKind
  target : String
  deriving DecidableEq, Repr

namespace RuleEngine

/-- The constant `UNLIMITED` of `RuleEngine.checkUnlimitedApproval`
(`ruleEngine.ts` line 13): the decimal representation of `2^256 - 1`
(`maxUint256`). -/
def UNLIMITED : String :=
  "115792089237316195423570985008687907853269984665640564039457584007913129639935"

/-- Mirrors `RuleEngine.checkUnlimitedApproval` (`ruleEngine.ts` lines 12-24):
a strict string equality test of the amount against `UNLIMITED`. -/
def checkUnlimitedApproval (approval : TokenApprovalData) : Option RuleResult :=
  if approval.amount = UNLIMITED then
    some { shouldExecute := true
           reason := "Unlimited approval detected"
           action := ActionKind.revoke
           target := approval.token }
  else
    none

/-- Mirrors `RuleEngine.checkStaleApproval` (`ruleEngine.ts` lines 27-31):
the body is a TODO and returns `null` for every input; the `currentTime`
argument is accepted and ignored. -/
def checkStaleApproval (_approval : TokenApprovalData) (_currentTime : Nat) :
    Option RuleResult :=
  none

/-- Mirrors `RuleEngine.checkRiskyApproval` (`ruleEngine.ts` lines 34-44). -/
def checkRiskyApproval (approval : TokenApprovalData) : Option RuleResult :=
  if approval.isRisky then
    some { shouldExecute := true
           reason := "Risky approval detected"
           action := ActionKind.revoke
           target := approval.token }
  else
    none

/-- Mirrors `RuleEngine.evaluateApproval` (`ruleEngine.ts` lines 47-61).
The source reads the clock (`Date.now()`) at the start of each call; the
reading is passed here as the explicit argument `currentTime`. -/
def evaluateApproval (currentTime : Nat) (approval : TokenApprovalData) :
    Option RuleResult :=
  match checkUnlimitedApproval approval with
  | some unlimitedResult => some unlimitedResult
  | none =>
    match checkRiskyApproval approval with
    | some riskyResult => some riskyResult
    | none =>
      match checkStaleApproval approval currentTime with
      | some staleResult => some staleResult
      | none => none

/-- Mirrors `RuleEngine.evaluateAllApprovals` (`ruleEngine.ts` lines 64-68):
`approvals.map(a => evaluateApproval(a)).filter(r => r !== null)`.  Each
element's evaluation performs its own clock reading in the source, so the
embedding takes a clock oracle giving the reading of the i-th call. -/
def evaluateAllApprovals (clock : Nat → Nat) (approvals : List TokenApprovalData) :
    List RuleResult :=
  ((approvals.enum.map fun p => evaluateApproval (clock p.1) p.2).filterMap id)

end RuleEngine

/-- Decimal value of an amount string, the semantics `BigInt(s)` gives a
decimal numeral in the source (compare the indexer handler in
`src/unnamed/part_009`, which works with `BigInt` amounts).  Used only to
state numeric facts about concrete amount literals. -/
def decStrToNat (s : String) : Nat :=
  s.data.foldl (fun n c => n * 10 + (c.toNat - 48)) 0

/-- The indexer's configured near-max unlimited threshold
`UNLIMITED_THRESHOLD = BigInt("0xffffffffffffffffffffffffffffffffffffffffffff")`
(`src/unnamed/part_009` line 7), i.e. `2^176 - 1`. -/
def UNLIMITED_THRESHOLD : Nat := 2 ^ 176 - 1

/-- A concrete approval whose amount is `maxUint256 - 1`: above any near-max
threshold, one less than `maxUint256`, and not risky. -/
def nearMaxApproval : TokenApprovalData :=
  { id := "1"
    owner := "0xOwner"
    spender := "0xSpender"
    token := "0xToken"
    amount := "115792089237316195423570985008687907853269984665640564039457584007913129639934"
    isRisky := false
    status := "ACTIVE" }

/-- A concrete approval with the exact `maxUint256` amount, also flagged risky. -/
def unlimitedRiskyApproval : TokenApprovalData :=
  { id := "2"
    owner := "0xOwner"
    spender := "0xSpender"
    token := "0xToken"
    amount := RuleEngine.UNLIMITED
    isRisky := true
    status := "ACTIVE" }

/-- A concrete risky approval with a small amount. -/
def riskyApproval : TokenApprovalData :=
  { id := "3"
    owner := "0xOwner"
    spender := "0xSpender"
    token := "0xToken"
    amount := "1000000"
    isRisky := true
    status := "ACTIVE" }

/-- Mirrors the `scope` field type of interface `DelegationRecord` in
`src/backend/src/agent/delegationRegistry.ts` (lines 7-11): a literal
type tag, a target list and a selector list. -/
structure DelegationScope where
  type : String
  targets : List String
  selectors : List String
  deriving DecidableEq, Repr

/-- Mirrors interface `DelegationRecord` of `delegationRegistry.ts`
(lines 3-14); `createdAt : Date` is embedded as a natural number. -/
structure DelegationRecord where
  id : String
  delegator : String
  delegate : String
  scope : DelegationScope
  createdAt : Nat
  isActive : Bool
  deriving DecidableEq, Repr

namespace DelegationRegistry

/-- The registry state: the `Map<string, DelegationRecord>` field
`delegations` of class `DelegationRegistry`.  Every entry is inserted via
`register`, which uses the record's own `id` as key, so the state is the
insertion-ordered list of records; key lookup is lookup on the `id` field. -/
abbrev Registry := List DelegationRecord

/-- Mirrors `DelegationRegistry.register` (`delegationRegistry.ts` lines 19-22):
`this.delegations.set(delegation.id, delegation)` — a keyed upsert with no
validation of any field and no failure path.  JS `Map.set` replaces an
existing key in place and appends a new key at the end. -/
def register (reg : Registry) (delegation : DelegationRecord) : Registry :=
  if (List.any reg fun r => r.id = delegation.id) then
    List.map (fun r => if r.id = delegation.id then delegation else r) reg
  else
    reg ++ [delegation]

/-- Mirrors `DelegationRegistry.revoke` (`delegationRegistry.ts` lines 24-30):
if the id is present its record's `isActive` is set to `false`; an absent id
is a silent no-op; nothing is removed and no error is raised. -/
def revoke (reg : Registry) (delegationId : String) : Registry :=
  List.map
    (fun r => if r.id = delegationId then { r with isActive := false } else r) reg

/-- Mirrors `DelegationRegistry.getActiveDelegations` (`delegationRegistry.ts`
lines 32-36): all stored records with the given delegate and `isActive`. -/
def getActiveDelegations (reg : Registry) (delegate : String) :
    List DelegationRecord :=
  List.filter (fun r => r.delegate = delegate && r.isActive) reg

/-- Mirrors `DelegationRegistry.hasDelegation` (`delegationRegistry.ts`
lines 44-48). -/
def hasDelegation (reg : Registry) (delegator delegate : String) : Bool :=
  List.any reg fun r => r.delegator = delegator && r.delegate = delegate && r.isActive

end DelegationRegistry

namespace Envio

/-- Mirrors `getAllApprovals` of `src/backend/src/services/envio.ts`
(lines 82-111).  The argument is the outcome of the GraphQL request
(`client.request` either returns the approval rows or throws, e.g. on
timeout or network failure); the source's `try/catch` returns the rows on
success and the empty array on any error. -/
def getAllApprovals (response : Except String (List TokenApprovalData)) :
    List TokenApprovalData :=
  match response with
  | Except.ok rows => rows
  | Except.error _ => []

end Envio

/-- Mirrors the element type of the `revocations` array built in
`WalletMonitor.checkWallet` (`src/unnamed/part_008` lines 75-81) after its
final `.filter(r => r.spender)`: a token together with a truthy (non-empty)
spender string. -/
structure Revocation where
  token : String
  spender : String
  deriving DecidableEq, Repr

namespace WalletMonitor

/-- Mirrors the pure core of `WalletMonitor.checkWallet`
(`src/unnamed/part_008` lines 56-94): from the fetched approvals, evaluate
all rules, keep the revoke actions, resolve each action's spender as the
spender of the FIRST fetched approval whose token equals the action's
target (`approvals.find(app => app.token === a.target)?.spender`), and drop
entries whose resolved spender is missing or empty (JS truthiness filter
`.filter(r => r.spender)`).  The `delegation` argument is received exactly
as in the source: it is passed through to the executor and never consulted
when building the revocation list. -/
def checkWalletRevocations (clock : Nat → Nat) (_delegation : DelegationRecord)
    (approvals : List TokenApprovalData) : List Revocation :=
  let actions := RuleEngine.evaluateAllApprovals clock approvals
  let revokeActions := List.filter (fun a => a.action = ActionKind.revoke) actions
  let candidates := List.map
    (fun a => (a.target,
      Option.map TokenApprovalData.spender
        (List.find? (fun app => app.token = a.target) approvals)))
    revokeActions
  List.filterMap
    (fun p => match p.2 with
      | some s => if s = "" then none else some { token := p.1, spender := s }
      | none => none)
    candidates

/-- Monitor lifecycle events: a call to `WalletMonitor.start`, a call to
`WalletMonitor.stop`, a firing of the cron schedule, and the completion of
one `checkAllWallets` cycle. -/
inductive MonitorEvent where
  | start
  | stop
  | tick
  | finishCycle
  deriving DecidableEq, Repr

/-- Monitor state: the `isRunning` flag of class `WalletMonitor`
(`src/unnamed/part_008` line 9), whether `cron.schedule` has been called,
and how many `checkAllWallets` cycles are currently in flight. -/
structure MonitorState where
  isRunning : Bool
  cronScheduled : Bool
  activeCycles : Nat
  deriving DecidableEq, Repr

/-- State before `start` is first called. -/
def initialState : MonitorState :=
  { isRunning := false, cronScheduled := false, activeCycles := 0 }

/-- One monitor transition, mirroring `src/unnamed/part_008` lines 11-32:
`start` returns early when `isRunning` is already set, otherwise sets the
flag, registers the cron callback and launches an immediate un-awaited
`checkAllWallets` cycle; a cron `tick` runs `this.checkAllWallets()`
unconditionally — the callback consults no flag and no in-flight count;
`stop` only clears `isRunning` (the cron task is never stored or stopped);
`finishCycle` ends one in-flight cycle. -/
def step (s : MonitorState) : MonitorEvent → MonitorState
  | MonitorEvent.start =>
      if s.isRunning then s
      else { isRunning := true, cronScheduled := true,
             activeCycles := s.activeCycles + 1 }
  | MonitorEvent.stop => { s with isRunning := false }
  | MonitorEvent.tick =>
      if s.cronScheduled then { s with activeCycles := s.activeCycles + 1 }
      else s
  | MonitorEvent.finishCycle =>
      if 0 < s.activeCycles then { s with activeCycles := s.activeCycles - 1 }
      else s

/-- Folds a sequence of events from a state. -/
def runEvents (s : MonitorState) (events : List MonitorEvent) : MonitorState :=
  List.foldl step s events

end WalletMonitor

namespace TransactionExecutor

/-- The constant returned by the stubbed `revokeApproval`
(`src/unnamed/part_008`, executor class, `return '0x' + '0'.repeat(64)`). -/
def placeholderTxHash : String :=
  String.mk ('0' :: 'x' :: List.replicate 64 '0')

/-- Mirrors `TransactionExecutor.revokeApproval` (`src/unnamed/part_008`
lines 136-161): it encodes an `approve(spender, 0)` call, logs, and returns
the placeholder hash; `redeemDelegations` (the Authority Provider) is
imported but never invoked, no execution record is written, and the
`delegation` argument is never consulted.  The function cannot fail on any
input reaching it. -/
def revokeApproval (_smartAccount _tokenAddress _spenderAddress : String)
    (_delegation : DelegationRecord) : String :=
  placeholderTxHash

/-- Mirrors `TransactionExecutor.executeMultipleRevocations`
(`src/unnamed/part_008` lines 163-180): a sequential loop calling
`revokeApproval` once per entry of the revocation list and collecting the
returned hashes; there is no idempotency key, no deduplication and no
lookup of prior executions. -/
def executeMultipleRevocations (smartAccount : String)
    (revocations : List Revocation) (delegation : DelegationRecord) :
    List String :=
  List.foldl
    (fun results r =>
      results ++ [revokeApproval smartAccount r.token r.spender delegation])
    [] revocations

end TransactionExecutor

/-- A concrete delegation record used in witnesses and counterexamples; its
scope targets do NOT contain `"0xToken"`. -/
def emptyScopeDelegation : DelegationRecord :=
  { id := "del-1"
    delegator := "0xOwner"
    delegate := "0xAgent"
    scope := { type := "functionCall", targets := [], selectors := [] }
    createdAt := 0
    isActive := true }

/-- A concrete registration input with an empty delegator. -/
def emptyDelegatorRecord : DelegationRecord :=
  { id := "bad-1"
    delegator := ""
    delegate := "0xAgent"
    scope := { type := "functionCall", targets := [], selectors := [] }
    createdAt := 0
    isActive := true }

/-- First of two records sharing a (delegator, delegate) pair. -/
def pairKeyRecordA : DelegationRecord :=
  { id := "pair-a"
    delegator := "0xOwner"
    delegate := "0xAgent"
    scope := { type := "functionCall", targets := ["0xToken"], selectors := [] }
    createdAt := 0
    isActive := true }

/-- Second record with the same (delegator, delegate) pair as
`pairKeyRecordA` but a different id. -/
def pairKeyRecordB : DelegationRecord :=
  { id := "pair-b"
    delegator := "0xOwner"
    delegate := "0xAgent"
    scope := { type := "functionCall", targets := ["0xToken"], selectors := [] }
    createdAt := 1
    isActive := true }

/-- A concrete approval sharing `riskyApproval`'s token with a different
spender, also triggering the revoke rule. -/
def secondSpenderApproval : TokenApprovalData :=
  { id := "4"
    owner := "0xOwner"
    spender := "0xSpender2"
    token := "0xToken"
    amount := "5"
    isRisky := true
    status := "ACTIVE" }

/-- A concrete revocation entry used to exercise duplicate submission. -/
def dupRevocation : Revocation := { token := "0xToken", spender := "0xSpender" }

/-!  Helper lemmas shared by several claim theorems. -/

/-- The clock reading passed to `evaluateApproval` is irrelevant: the only
rule consuming it (`checkStaleApproval`) is a TODO stub returning `none`. -/
theorem evaluateApproval_clock_irrel (t u : Nat) (a : TokenApprovalData) :
    RuleEngine.evaluateApproval t a = RuleEngine.evaluateApproval u a := rfl

/-- Mapping evaluation over an enumerated list ignores the indices and the
clock oracle. -/
theorem enumFrom_map_eval (clock : Nat → Nat) (l : List TokenApprovalData)
    (n : Nat) :
    List.map (fun p => RuleEngine.evaluateApproval (clock p.1) p.2)
        (List.enumFrom n l) =
      List.map (RuleEngine.evaluateApproval 0) l := by
  induction l generalizing n with
  | nil => rfl
  | cons a l ih =>
      simp only [List.enumFrom, List.map_cons]
      rw [ih, evaluateApproval_clock_irrel (clock n) 0 a]

/-- `evaluateAllApprovals` is `filterMap` of the (clock-independent)
single-approval evaluation. -/
theorem evaluateAllApprovals_eq_filterMap (clock : Nat → Nat)
    (l : List TokenApprovalData) :
    RuleEngine.evaluateAllApprovals clock l =
      List.filterMap (RuleEngine.evaluateApproval 0) l := by
  unfold RuleEngine.evaluateAllApprovals
  rw [List.enum, enumFrom_map_eval, List.filterMap_map]
  rfl

/-- Every result `evaluateApproval` returns is an executable revoke action
whose target is the approval's token. -/
theorem evaluateApproval_result_eq (t : Nat) (a : TokenApprovalData)
    (r : RuleResult) (h : RuleEngine.evaluateApproval t a = some r) :
    r.shouldExecute = true ∧ r.action = ActionKind.revoke ∧ r.target = a.token := by
  unfold RuleEngine.evaluateApproval RuleEngine.checkUnlimitedApproval
    RuleEngine.checkRiskyApproval RuleEngine.checkStaleApproval at h
  by_cases hU : a.amount = RuleEngine.UNLIMITED <;>
    by_cases hR : a.isRisky <;>
      simp [hU, hR] at h <;> simp [← h]

/-- Appending one image element per input element is `map`. -/
theorem foldl_append_eq_map {α β : Type} (g : α → β) (l : List α)
    (init : List β) :
    List.foldl (fun acc r => acc ++ [g r]) init l = init ++ List.map g l := by
  induction l generalizing init with
  | nil => simp
  | cons a l ih => simp [ih]

/-!  C3: the unlimited-approval rule. -/

/-- C3 counterexample: the approval `nearMaxApproval` has amount
`maxUint256 - 1` (value `2^256 - 2`), which is at or above the repository's
own configured near-max unlimited threshold (`2^176 - 1`, from the indexer
handler) and is not risky, yet `evaluateApproval` proposes no action at all
— refuting "amount greater than or equal to the unlimited threshold (a
near-max value, not only exact equality with maxUint256) yields a revoke". -/
theorem near_max_amount_not_revoked :
    decStrToNat nearMaxApproval.amount = 2 ^ 256 - 2 ∧
    UNLIMITED_THRESHOLD ≤ 2 ^ 256 - 2 ∧
    nearMaxApproval.isRisky = false ∧
    RuleEngine.evaluateApproval 0 nearMaxApproval = none := by
  refine ⟨by decide, by decide, rfl, rfl⟩

/-- C3 (amended): `evaluateApproval` fires the unlimited rule only on exact
string equality of the amount with the `maxUint256` decimal literal — no
near-max threshold is applied — and then returns a revoke with the code's
reason string "Unlimited approval detected", regardless of `isRisky`;
whenever the amount differs from that literal, any returned action carries
the risky-rule reason instead. -/
theorem unlimited_rule_requires_exact_maxUint256 (t : Nat)
    (a : TokenApprovalData) :
    (a.amount = RuleEngine.UNLIMITED →
      RuleEngine.evaluateApproval t a =
        some { shouldExecute := true, reason := "Unlimited approval detected",
               action := ActionKind.revoke, target := a.token }) ∧
    (a.amount ≠ RuleEngine.UNLIMITED →
      ∀ r : RuleResult, RuleEngine.evaluateApproval t a = some r →
        r.reason = "Risky approval detected") := by
  constructor
  · intro h
    simp [RuleEngine.evaluateApproval, RuleEngine.checkUnlimitedApproval, h]
  · intro h r hr
    by_cases hR : a.isRisky
    · simp [RuleEngine.evaluateApproval, RuleEngine.checkUnlimitedApproval,
        RuleEngine.checkRiskyApproval, RuleEngine.checkStaleApproval,
        h, hR] at hr
      simp [← hr]
    · simp [RuleEngine.evaluateApproval, RuleEngine.checkUnlimitedApproval,
        RuleEngine.checkRiskyApproval, RuleEngine.checkStaleApproval,
        h, hR] at hr

/-- C3 witness: both branches of the amended theorem at concrete approvals
(`unlimitedRiskyApproval` is risky yet reported as unlimited). -/
theorem unlimited_rule_requires_exact_maxUint256_witness :
    (RuleEngine.evaluateApproval 0 unlimitedRiskyApproval =
      some { shouldExecute := true, reason := "Unlimited approval detected",
             action := ActionKind.revoke, target := unlimitedRiskyApproval.token }) ∧
    (∀ r : RuleResult, RuleEngine.evaluateApproval 0 riskyApproval = some r →
      r.reason = "Risky approval detected") :=
  ⟨(unlimited_rule_requires_exact_maxUint256 0 unlimitedRiskyApproval).1 rfl,
   (unlimited_rule_requires_exact_maxUint256 0 riskyApproval).2 (by decide)⟩

/-!  C8: evaluateAllApprovals as pure map-and-filter. -/

/-- C8: `evaluateAllApprovals` equals mapping `evaluateApproval` over the
input list and filtering out the `none` results in input order
(`List.filterMap`), and it is deterministic and clock-independent: two
invocations, even with different clock readings (the only environmental
input the source touches, via `Date.now()`), yield identical output lists
in the same order. -/
theorem evaluateAllApprovals_pure_map_filter (clock clock2 : Nat → Nat)
    (approvals : List TokenApprovalData) :
    RuleEngine.evaluateAllApprovals clock approvals =
      List.filterMap (RuleEngine.evaluateApproval 0) approvals ∧
    RuleEngine.evaluateAllApprovals clock approvals =
      RuleEngine.evaluateAllApprovals clock2 approvals := by
  constructor
  · exact evaluateAllApprovals_eq_filterMap clock approvals
  · rw [evaluateAllApprovals_eq_filterMap, evaluateAllApprovals_eq_filterMap]

/-!  C9: the risky-approval rule and its priority. -/

/-- C9 counterexample: on a risky, small-amount approval the code returns the
reason string "Risky approval detected", not the claimed literal
"risky spender" — the claim's reason wording does not match the code. -/
theorem risky_reason_literal_differs :
    RuleEngine.evaluateApproval 0 riskyApproval =
      some { shouldExecute := true, reason := "Risky approval detected",
             action := ActionKind.revoke, target := "0xToken" } ∧
    "Risky approval detected" ≠ "risky spender" := by
  refine ⟨rfl, by decide⟩

/-- C9 (amended): for every approval with `isRisky = true` whose amount is
not the exact `maxUint256` literal, `evaluateApproval` returns a revoke
action with the risky-rule reason string "Risky approval detected"; the
risky rule is checked only after the unlimited rule (first match wins): on
an exact `maxUint256` amount the unlimited reason is returned even when
`isRisky` is set. -/
theorem risky_rule_second_priority (t : Nat) (a : TokenApprovalData)
    (hR : a.isRisky = true) :
    (a.amount ≠ RuleEngine.UNLIMITED →
      RuleEngine.evaluateApproval t a =
        some { shouldExecute := true, reason := "Risky approval detected",
               action := ActionKind.revoke, target := a.token }) ∧
    (a.amount = RuleEngine.UNLIMITED →
      RuleEngine.evaluateApproval t a =
        some { shouldExecute := true, reason := "Unlimited approval detected",
               action := ActionKind.revoke, target := a.token }) := by
  constructor
  · intro h
    simp [RuleEngine.evaluateApproval, RuleEngine.checkUnlimitedApproval,
      RuleEngine.checkRiskyApproval, h, hR]
  · intro h
    simp [RuleEngine.evaluateApproval, RuleEngine.checkUnlimitedApproval, h]

/-- C9 witness: both branches of the amended theorem at concrete risky
approvals. -/
theorem risky_rule_second_priority_witness :
    (RuleEngine.evaluateApproval 0 riskyApproval =
      some { shouldExecute := true, reason := "Risky approval detected",
             action := ActionKind.revoke, target := riskyApproval.token }) ∧
    (RuleEngine.evaluateApproval 0 unlimitedRiskyApproval =
      some { shouldExecute := true, reason := "Unlimited approval detected",
             action := ActionKind.revoke, target := unlimitedRiskyApproval.token }) :=
  ⟨(risky_rule_second_priority 0 riskyApproval rfl).1 (by decide),
   (risky_rule_second_priority 0 unlimitedRiskyApproval rfl).2 rfl⟩

/-!  C5: revocation visibility and idempotence in the registry. -/

/-- C5: after `revoke(id)`, the very next `getActiveDelegations` read contains
no record with that id; `revoke` is idempotent (revoking a second time leaves
the registry unchanged from the first revoke) and on an id absent from the
registry it is the identity — and being a total function it never fails. -/
theorem revoke_removes_from_active_and_idempotent
    (reg : DelegationRegistry.Registry) (delegationId delegate : String) :
    (∀ r ∈ DelegationRegistry.getActiveDelegations
        (DelegationRegistry.revoke reg delegationId) delegate,
      r.id ≠ delegationId) ∧
    DelegationRegistry.revoke (DelegationRegistry.revoke reg delegationId)
        delegationId =
      DelegationRegistry.revoke reg delegationId ∧
    ((∀ r ∈ reg, r.id ≠ delegationId) →
      DelegationRegistry.revoke reg delegationId = reg) := by
  refine ⟨?_, ?_, ?_⟩
  · intro r hr
    unfold DelegationRegistry.getActiveDelegations at hr
    obtain ⟨hmem, hflag⟩ := List.mem_filter.mp hr
    obtain ⟨x, hx, hfx⟩ := List.mem_map.mp hmem
    by_cases hid : x.id = delegationId
    · rw [if_pos hid] at hfx
      rw [← hfx] at hflag
      simp at hflag
    · rw [if_neg hid] at hfx
      rw [← hfx]
      exact hid
  · unfold DelegationRegistry.revoke
    rw [List.map_map]
    refine List.map_congr_left ?_
    intro x _
    by_cases hid : x.id = delegationId
    · simp [hid]
    · simp [hid]
  · intro h
    unfold DelegationRegistry.revoke
    have hcongr : ∀ x ∈ reg,
        (if x.id = delegationId then { x with isActive := false } else x) = x := by
      intro x hx
      rw [if_neg (h x hx)]
    rw [List.map_congr_left hcongr]
    simp

/-- C5 witness: the three conjuncts at a concrete registry. -/
theorem revoke_removes_from_active_and_idempotent_witness :
    (∀ r ∈ DelegationRegistry.getActiveDelegations
        (DelegationRegistry.revoke [emptyScopeDelegation] "del-1") "0xAgent",
      r.id ≠ "del-1") ∧
    DelegationRegistry.revoke
        (DelegationRegistry.revoke [emptyScopeDelegation] "del-1") "del-1" =
      DelegationRegistry.revoke [emptyScopeDelegation] "del-1" ∧
    DelegationRegistry.revoke [emptyScopeDelegation] "unknown-id" =
      [emptyScopeDelegation] :=
  ⟨(revoke_removes_from_active_and_idempotent [emptyScopeDelegation]
      "del-1" "0xAgent").1,
   (revoke_removes_from_active_and_idempotent [emptyScopeDelegation]
      "del-1" "0xAgent").2.1,
   (revoke_removes_from_active_and_idempotent [emptyScopeDelegation]
      "unknown-id" "0xAgent").2.2 (by decide)⟩

/-!  C6: registration validation. -/

/-- C6 counterexample: `register` accepts a record with an empty delegator —
it raises no `ValidationError` and stores the record — and it keys by the
record's id, not by the (delegator, delegate) pair: two records sharing the
pair but differing in id are both stored. -/
theorem register_accepts_empty_delegator :
    DelegationRegistry.register [] emptyDelegatorRecord =
      [emptyDelegatorRecord] ∧
    emptyDelegatorRecord.delegator = "" ∧
    DelegationRegistry.register (DelegationRegistry.register [] pairKeyRecordA)
        pairKeyRecordB = [pairKeyRecordA, pairKeyRecordB] ∧
    pairKeyRecordA.delegator = pairKeyRecordB.delegator ∧
    pairKeyRecordA.delegate = pairKeyRecordB.delegate ∧
    pairKeyRecordA.id ≠ pairKeyRecordB.id := by
  refine ⟨by decide, rfl, by decide, rfl, rfl, by decide⟩

/-- C6 (amended): `register` performs no validation and has no failure path:
every record — also one with an empty delegator, empty delegate or empty
scope — is stored (keyed by the record's id, the upsert replacing only an
entry with the same id). -/
theorem register_stores_unconditionally (reg : DelegationRegistry.Registry)
    (rec : DelegationRecord) :
    rec ∈ DelegationRegistry.register reg rec := by
  unfold DelegationRegistry.register
  by_cases h : List.any reg fun r => r.id = rec.id
  · rw [if_pos h]
    obtain ⟨x, hx, hid⟩ := List.any_eq_true.mp h
    refine List.mem_map.mpr ⟨x, hx, ?_⟩
    rw [if_pos (of_decide_eq_true hid)]
  · rw [if_neg h]
    exact List.mem_append_right _ (List.mem_singleton.mpr rfl)

/-!  C7: indexer failure handling. -/

/-- C7 counterexample: `getAllApprovals` swallows a request failure (timeout,
network error) and returns the empty list, the very outcome of a successful
query over a wallet with no active approvals — refuting "a failed Indexer
query never yields the same outcome as a successful query returning an
empty approval set". -/
theorem indexer_failure_equals_empty_success :
    Envio.getAllApprovals (Except.error "GraphQL request timeout") =
      Envio.getAllApprovals (Except.ok []) ∧
    Envio.getAllApprovals (Except.error "GraphQL request timeout") = [] :=
  ⟨rfl, rfl⟩

/-- C7 (amended): every indexer failure is caught and converted to the empty
approval list, and the monitor then proposes zero revocations — exactly the
"no action needed" outcome of a successful empty read; nothing distinguishes
the two and nothing is retried. -/
theorem indexer_failure_yields_no_actions (e : String) (clock : Nat → Nat)
    (d : DelegationRecord) :
    Envio.getAllApprovals (Except.error e) = [] ∧
    WalletMonitor.checkWalletRevocations clock d
        (Envio.getAllApprovals (Except.error e)) =
      WalletMonitor.checkWalletRevocations clock d
        (Envio.getAllApprovals (Except.ok [])) :=
  ⟨rfl, rfl⟩

/-!  C1: executor idempotency. -/

/-- C1 counterexample: handing the executor the same proposed action twice —
same delegation, target token, target spender, hence the same would-be
idempotency key — produces two submission calls and two placeholder results,
not one; no execution-record store exists anywhere in the executor. -/
theorem duplicate_action_submitted_twice :
    TransactionExecutor.executeMultipleRevocations "0xOwner"
        [dupRevocation, dupRevocation] emptyScopeDelegation =
      [TransactionExecutor.placeholderTxHash,
       TransactionExecutor.placeholderTxHash] ∧
    (TransactionExecutor.executeMultipleRevocations "0xOwner"
        [dupRevocation, dupRevocation] emptyScopeDelegation).length = 2 :=
  ⟨rfl, rfl⟩

/-- C1 (amended): the executor keeps no execution records and derives no
idempotency key: it performs exactly one `revokeApproval` submission per
entry of the revocation list, duplicates included, each returning the
constant placeholder hash; the Authority Provider (`redeemDelegations`) is
never invoked by `revokeApproval` at all. -/
theorem executor_submits_once_per_entry (acct : String)
    (revs : List Revocation) (d : DelegationRecord) :
    TransactionExecutor.executeMultipleRevocations acct revs d =
      List.map
        (fun r => TransactionExecutor.revokeApproval acct r.token r.spender d)
        revs ∧
    (TransactionExecutor.executeMultipleRevocations acct revs d).length =
      revs.length := by
  have hmap :
      TransactionExecutor.executeMultipleRevocations acct revs d =
        List.map
          (fun r => TransactionExecutor.revokeApproval acct r.token r.spender d)
          revs := by
    unfold TransactionExecutor.executeMultipleRevocations
    rw [foldl_append_eq_map
      (fun r => TransactionExecutor.revokeApproval acct r.token r.spender d)
      revs []]
    rfl
  exact ⟨hmap, by rw [hmap, List.length_map]⟩

/-!  C2: scope enforcement. -/

/-- C2 counterexample: the delegation's scope target list is empty — so the
approval's token is certainly absent from it — yet the monitor still builds
the revocation and the executor still performs one submission call for it,
not zero. -/
theorem out_of_scope_action_submitted :
    emptyScopeDelegation.scope.targets = [] ∧
    WalletMonitor.checkWalletRevocations (fun _ => 0) emptyScopeDelegation
        [unlimitedRiskyApproval] =
      [{ token := "0xToken", spender := "0xSpender" }] ∧
    (TransactionExecutor.executeMultipleRevocations "0xOwner"
        (WalletMonitor.checkWalletRevocations (fun _ => 0) emptyScopeDelegation
          [unlimitedRiskyApproval]) emptyScopeDelegation).length = 1 := by
  refine ⟨rfl, by decide, by decide⟩

/-- C2 (amended): no scope check exists at proposal or at submission time:
the revocation list the monitor hands to the executor is computed without
consulting the delegation record at all, so it is identical under any two
delegations — in particular under one whose target list excludes the token
— and every entry is submitted regardless. -/
theorem revocations_independent_of_scope (clock : Nat → Nat)
    (d d2 : DelegationRecord) (approvals : List TokenApprovalData) :
    WalletMonitor.checkWalletRevocations clock d approvals =
      WalletMonitor.checkWalletRevocations clock d2 approvals := rfl

/-!  C4: cycle overlap in the monitor. -/

/-- C4 counterexample: `start` launches the immediate first cycle; the first
cron tick fires before that cycle finishes and is NOT skipped — after
[start, tick] two cycles are in flight concurrently, refuting "whenever a
scheduled tick fires while the previous cycle has not finished, that tick
is skipped and no second concurrent cycle starts". -/
theorem tick_during_cycle_starts_second_cycle :
    (WalletMonitor.runEvents WalletMonitor.initialState
        [WalletMonitor.MonitorEvent.start]).activeCycles = 1 ∧
    WalletMonitor.runEvents WalletMonitor.initialState
        [WalletMonitor.MonitorEvent.start, WalletMonitor.MonitorEvent.tick] =
      { isRunning := true, cronScheduled := true, activeCycles := 2 } := by
  refine ⟨rfl, rfl⟩

/-- C4 (amended): the `isRunning` guard protects only `start` — calling
`start` while running is a no-op, so the cron job is scheduled once — but
the scheduled callback has no single-flight guard: once the cron schedule
exists, a tick always starts one more `checkAllWallets` cycle, however many
cycles are already in flight. -/
theorem tick_unguarded_start_guarded (s : WalletMonitor.MonitorState) :
    (s.cronScheduled = true →
      (WalletMonitor.step s WalletMonitor.MonitorEvent.tick).activeCycles =
        s.activeCycles + 1) ∧
    (s.isRunning = true →
      WalletMonitor.step s WalletMonitor.MonitorEvent.start = s) := by
  constructor
  · intro h
    simp [WalletMonitor.step, h]
  · intro h
    simp [WalletMonitor.step, h]

/-- C4 witness: the amended theorem at a state with one unfinished cycle. -/
theorem tick_unguarded_start_guarded_witness :
    (WalletMonitor.step
        { isRunning := true, cronScheduled := true, activeCycles := 1 }
        WalletMonitor.MonitorEvent.tick).activeCycles = 2 ∧
    WalletMonitor.step
        { isRunning := true, cronScheduled := true, activeCycles := 1 }
        WalletMonitor.MonitorEvent.start =
      { isRunning := true, cronScheduled := true, activeCycles := 1 } :=
  ⟨(tick_unguarded_start_guarded
      { isRunning := true, cronScheduled := true, activeCycles := 1 }).1 rfl,
   (tick_unguarded_start_guarded
      { isRunning := true, cronScheduled := true, activeCycles := 1 }).2 rfl⟩

/-!  C10: spender resolution by first matching token. -/

/-- C10: when the monitor converts revoke actions back into revocations, the
spender is resolved as the spender of the FIRST fetched approval whose token
equals the action's target: for a fetched list of two approvals with the
same token, different spenders, both triggering revoke, both generated
revocations carry the first approval's spender and no generated revocation
carries the second spender. -/
theorem spender_resolved_to_first_matching_token (clock : Nat → Nat)
    (d : DelegationRecord) (a1 a2 : TokenApprovalData)
    (htok : a2.token = a1.token) (hsp : a2.spender ≠ a1.spender)
    (hne : a1.spender ≠ "") (r1 r2 : RuleResult)
    (hr1 : RuleEngine.evaluateApproval 0 a1 = some r1)
    (hr2 : RuleEngine.evaluateApproval 0 a2 = some r2) :
    WalletMonitor.checkWalletRevocations clock d [a1, a2] =
      [{ token := a1.token, spender := a1.spender },
       { token := a1.token, spender := a1.spender }] ∧
    ∀ rev ∈ WalletMonitor.checkWalletRevocations clock d [a1, a2],
      rev.spender ≠ a2.spender := by
  obtain ⟨hse1, hact1, htgt1⟩ := evaluateApproval_result_eq 0 a1 r1 hr1
  obtain ⟨hse2, hact2, htgt2⟩ := evaluateApproval_result_eq 0 a2 r2 hr2
  have hmain : WalletMonitor.checkWalletRevocations clock d [a1, a2] =
      [{ token := a1.token, spender := a1.spender },
       { token := a1.token, spender := a1.spender }] := by
    unfold WalletMonitor.checkWalletRevocations
    rw [evaluateAllApprovals_eq_filterMap]
    simp [List.filterMap_cons, hr1, hr2, List.filter_cons, hact1, hact2,
      List.find?, htgt1, htgt2, htok, hne]
  refine ⟨hmain, ?_⟩
  intro rev hrev
  rw [hmain] at hrev
  simp only [List.mem_cons, List.not_mem_nil, or_false] at hrev
  have hs : rev.spender = a1.spender := by
    rcases hrev with h | h <;> rw [h]
  rw [hs]
  exact fun hcontra => hsp hcontra.symm

/-- C10 witness: two risky approvals sharing a token with distinct spenders
— both revocations carry the first spender. -/
theorem spender_resolved_to_first_matching_token_witness :
    WalletMonitor.checkWalletRevocations (fun _ => 0) emptyScopeDelegation
        [riskyApproval, secondSpenderApproval] =
      [{ token := "0xToken", spender := "0xSpender" },
       { token := "0xToken", spender := "0xSpender" }] :=
  (spender_resolved_to_first_matching_token (fun _ => 0) emptyScopeDelegation
      riskyApproval secondSpenderApproval rfl (by decide) (by decide)
      _ _ rfl rfl).1

end WalletAutopilot
